import Mathlib

/-!
# Verification of the Octet String Value object (bacnet-rs)

Shallow embedding of `src/object/octet_string.rs`: the `BoundedVec`
validated container and the `OctetString` BACnet object with its
property-access operations (`get_property`, `set_property`,
`set_present_value`, `get_status_flags`, `set_status_flags`,
`is_property_writable`, `property_list`).

Rust `Vec<u8>` payloads are embedded as `List Nat`, `String` as `String`,
the `u8` status byte as `Nat` (all values the code ever stores fit in a
byte).  Fallible Rust methods taking `&mut self` are embedded as functions
returning the `Result` together with the post-state, so that the error
paths' effect on the object is explicit.

The auxiliary types imported from `crate::object` (`ObjectIdentifier`,
`ObjectType`, `PropertyIdentifier`, `PropertyValue`, `ObjectError`) are
not part of the provided sources; they are modelled from the spec as
noted on each declaration.
-/

namespace Bacnet

/-- Modelled from the spec: the crate's `ObjectType` enumeration from
`crate::object` (not present in the sources); only the `OctetString`
variant is used by this object. -/
inductive ObjectType where
  | OctetString
deriving DecidableEq, Repr

/-- Modelled from the spec: the numeric type-code of an `ObjectType`
(the Rust `as u32` cast of the enum discriminant); the spec calls it
"the enumerated type-code".  The Octet String Value object type code in
ASHRAE 135 is 47. -/
def ObjectType.toU32 : ObjectType → Nat
  | .OctetString => 47

/-- Modelled from the spec: `ObjectIdentifier` from `crate::object`, "a
pair (object-type enumeration, instance number: unsigned 22-bit range per
protocol, represented here as a wider unsigned integer)". -/
structure ObjectIdentifier where
  objectType : ObjectType
  instanceNum : Nat
deriving DecidableEq, Repr

/-- Modelled from the spec: `ObjectIdentifier::new` pairs the type and
instance number. -/
def ObjectIdentifier.new (t : ObjectType) (instanceNum : Nat) : ObjectIdentifier :=
  ⟨t, instanceNum⟩

/-- Modelled from the spec: the `PropertyIdentifier` enumeration from
`crate::object` (not present in the sources).  It includes the four
identifiers of this object's catalog, plus `Description`, `StatusFlags`
and `OutOfService`, which the spec mentions as BACnet-standard property
names that a property identifier may carry. -/
inductive PropertyIdentifier where
  | ObjectIdentifier
  | ObjectName
  | ObjectType
  | PresentValue
  | Description
  | StatusFlags
  | OutOfService
deriving DecidableEq, Repr

/-- Modelled from the spec: the `PropertyValue` tagged-value enumeration
from `crate::object` (not present in the sources); the variants used by
this object are the identifier tag, the character-string tag, the
enumerated tag and the octet-string tag, plus further application tags
(here `BooleanValue` and `Unsigned`) standing for the rest of the
enumeration. -/
inductive PropertyValue where
  | ObjectIdentifier (id : ObjectIdentifier)
  | CharacterString (s : String)
  | Enumerated (v : Nat)
  | OctetString (data : List Nat)
  | BooleanValue (b : Bool)
  | Unsigned (v : Nat)
deriving DecidableEq, Repr

/-- Modelled from the spec: the `ObjectError` taxonomy from
`crate::object` (not present in the sources): `UnknownProperty`,
`InvalidPropertyType`, `PropertyNotWritable`. -/
inductive ObjectError where
  | UnknownProperty
  | InvalidPropertyType
  | PropertyNotWritable
deriving DecidableEq, Repr

/-- `MAX_OCTET_STRING_SIZE`: the bound on the present-value payload
("limit vec size so we can use MAX_ADPU 1024 and not worry about
segmenting"). -/
def MAX_OCTET_STRING_SIZE : Nat := 900

/-- `BoundedVecError`: error of the bounded-buffer constructor, carrying
the offending length and the configured maximum. -/
inductive BoundedVecError where
  | OversizeData (len : Nat) (max_len : Nat)
deriving DecidableEq, Repr

/-- `BoundedVec`: validated container around a byte sequence. -/
structure BoundedVec where
  inner : List Nat
deriving DecidableEq, Repr

/-- `BoundedVec::new`: rejects data longer than `MAX_OCTET_STRING_SIZE`
with `OversizeData { len, max_len }`, otherwise wraps it. -/
def BoundedVec.new (data : List Nat) : Except BoundedVecError BoundedVec :=
  if data.length > MAX_OCTET_STRING_SIZE then
    Except.error (BoundedVecError.OversizeData data.length MAX_OCTET_STRING_SIZE)
  else
    Except.ok ⟨data⟩

/-- `BoundedVec::len`. -/
def BoundedVec.len (b : BoundedVec) : Nat := b.inner.length

/-- The `OctetString` Octet String Value object. -/
structure OctetString where
  identifier : ObjectIdentifier
  object_name : String
  description : String
  present_value : List Nat
  status_flags : Nat
deriving DecidableEq, Repr

/-- `OctetString::new`: fresh object with the given instance and name,
empty description, empty present value, zero status flags. -/
def OctetString.new (instanceNum : Nat) (object_name : String) : OctetString :=
  { identifier := ObjectIdentifier.new ObjectType.OctetString instanceNum
    object_name := object_name
    description := ""
    present_value := []
    status_flags := 0 }

/-- `OctetString::set_present_value`: routes the input through
`BoundedVec::new` (the `?` operator returns the error without touching
`self`); on success the buffer replaces `present_value`.  Embedded as the
`Result` paired with the post-state. -/
def OctetString.set_present_value (o : OctetString) (value : List Nat) :
    Except BoundedVecError Unit × OctetString :=
  match BoundedVec.new value with
  | Except.error e => (Except.error e, o)
  | Except.ok bounded_value =>
      (Except.ok (), { o with present_value := bounded_value.inner })

/-- `OctetString::get_status_flags`: unpacks (in-alarm, fault,
overridden, out-of-service) from bits 3..0 of the status byte. -/
def OctetString.get_status_flags (o : OctetString) : Bool × Bool × Bool × Bool :=
  ((o.status_flags &&& 0x08) ≠ 0,
   (o.status_flags &&& 0x04) ≠ 0,
   (o.status_flags &&& 0x02) ≠ 0,
   (o.status_flags &&& 0x01) ≠ 0)

/-- `OctetString::set_status_flags`: zeroes the status byte then ORs in
bit 3 for in-alarm, bit 2 for fault, bit 1 for overridden, bit 0 for
out-of-service. -/
def OctetString.set_status_flags (o : OctetString)
    (in_alarm fault overridden out_of_service : Bool) : OctetString :=
  let sf : Nat := 0
  let sf := if in_alarm then sf ||| 0x08 else sf
  let sf := if fault then sf ||| 0x04 else sf
  let sf := if overridden then sf ||| 0x02 else sf
  let sf := if out_of_service then sf ||| 0x01 else sf
  { o with status_flags := sf }

/-- `BacnetObject::identifier` for `OctetString`: pure accessor. -/
def OctetString.identifier_op (o : OctetString) : ObjectIdentifier :=
  o.identifier

/-- `BacnetObject::get_property` for `OctetString`: match on the
property identifier; the four catalog properties return their tagged
values, everything else is `UnknownProperty`. -/
def OctetString.get_property (o : OctetString) (property : PropertyIdentifier) :
    Except ObjectError PropertyValue :=
  match property with
  | PropertyIdentifier.ObjectIdentifier =>
      Except.ok (PropertyValue.ObjectIdentifier o.identifier)
  | PropertyIdentifier.ObjectName =>
      Except.ok (PropertyValue.CharacterString o.object_name)
  | PropertyIdentifier.ObjectType =>
      Except.ok (PropertyValue.Enumerated ObjectType.OctetString.toU32)
  | PropertyIdentifier.PresentValue =>
      Except.ok (PropertyValue.OctetString o.present_value)
  | _ => Except.error ObjectError.UnknownProperty

/-- `BacnetObject::set_property` for `OctetString`: only `ObjectName`
with a character-string value is accepted; a non-character-string value
for `ObjectName` is `InvalidPropertyType`; every other property is
`PropertyNotWritable`.  Embedded as the `Result` paired with the
post-state. -/
def OctetString.set_property (o : OctetString)
    (property : PropertyIdentifier) (value : PropertyValue) :
    Except ObjectError Unit × OctetString :=
  match property with
  | PropertyIdentifier.ObjectName =>
      match value with
      | PropertyValue.CharacterString name =>
          (Except.ok (), { o with object_name := name })
      | _ => (Except.error ObjectError.InvalidPropertyType, o)
  | _ => (Except.error ObjectError.PropertyNotWritable, o)

/-- `BacnetObject::is_property_writable` for `OctetString`:
`matches!(property, PropertyIdentifier::ObjectName)`. -/
def OctetString.is_property_writable (_o : OctetString)
    (property : PropertyIdentifier) : Bool :=
  match property with
  | PropertyIdentifier.ObjectName => true
  | _ => false

/-- `BacnetObject::property_list` for `OctetString`: the fixed
four-element catalog. -/
def OctetString.property_list (_o : OctetString) : List PropertyIdentifier :=
  [PropertyIdentifier.ObjectIdentifier,
   PropertyIdentifier.ObjectName,
   PropertyIdentifier.ObjectType,
   PropertyIdentifier.PresentValue]

/-! ## Operation sequences (for the reachability invariant) -/

/-- One call of the object's mutating or reading interface. -/
inductive Op where
  | getProp (p : PropertyIdentifier)
  | setProp (p : PropertyIdentifier) (v : PropertyValue)
  | setPresent (data : List Nat)
  | getFlags
  | setFlags (a b c d : Bool)
deriving DecidableEq, Repr

/-- The state after one operation: reads leave the object as is, writes
take the post-state of the embedded method. -/
def applyOp (o : OctetString) : Op → OctetString
  | Op.getProp _ => o
  | Op.setProp p v => (o.set_property p v).2
  | Op.setPresent data => (o.set_present_value data).2
  | Op.getFlags => o
  | Op.setFlags a b c d => o.set_status_flags a b c d

/-- The state after a sequence of operations. -/
def runOps (o : OctetString) : List Op → OctetString
  | [] => o
  | op :: rest => runOps (applyOp o op) rest

/-! ## Theorems -/

/-- Claim C1, counterexample: on a freshly constructed object,
`get_property(Description)` fails with `UnknownPropertyError` instead of
yielding a character-string tag as the claim states — the code's
`get_property` has no `Description` arm, so `Description` falls through
to the catch-all error case. -/
theorem C1_description_counterexample :
    (OctetString.new 1 "test").get_property PropertyIdentifier.Description
      = Except.error ObjectError.UnknownProperty ∧
    (match (OctetString.new 1 "test").get_property PropertyIdentifier.Description with
     | Except.ok (PropertyValue.CharacterString _) => False
     | _ => True) :=
  ⟨rfl, trivial⟩

/-- Claim C1 (amended): for every object state, `get_property` returns
the identifier tag for `ObjectIdentifier`, a character-string tag for
`ObjectName`, the enumerated type-code tag for `ObjectType`, and an
octet-string tag holding a copy of the current buffer for
`PresentValue`; every other property identifier — `Description`
included — fails with `UnknownPropertyError`. -/
theorem C1_get_property_catalog (o : OctetString) :
    o.get_property PropertyIdentifier.ObjectIdentifier
        = Except.ok (PropertyValue.ObjectIdentifier o.identifier) ∧
    o.get_property PropertyIdentifier.ObjectName
        = Except.ok (PropertyValue.CharacterString o.object_name) ∧
    o.get_property PropertyIdentifier.ObjectType
        = Except.ok (PropertyValue.Enumerated ObjectType.OctetString.toU32) ∧
    o.get_property PropertyIdentifier.PresentValue
        = Except.ok (PropertyValue.OctetString o.present_value) ∧
    ∀ p : PropertyIdentifier, p ∉ o.property_list →
      o.get_property p = Except.error ObjectError.UnknownProperty := by
  refine ⟨rfl, rfl, rfl, rfl, ?_⟩
  intro p hp
  cases p <;>
    first
      | rfl
      | exact absurd (by simp [OctetString.property_list]) hp

/-- Claim C1 witness: the non-catalog case of the amended claim at a
concrete object and property. -/
theorem C1_get_property_catalog_witness :
    (OctetString.new 1 "test").get_property PropertyIdentifier.StatusFlags
      = Except.error ObjectError.UnknownProperty :=
  (C1_get_property_catalog (OctetString.new 1 "test")).2.2.2.2
    PropertyIdentifier.StatusFlags (by decide)

/-- Claim C2: a byte sequence of length at most 900 yields a bounded
buffer whose `len()` is the input length; a longer one makes both
`BoundedVec::new` and `set_present_value` fail with
`OversizeData { len = input length, max_len = 900 }`. -/
theorem C2_bounded_construction (data : List Nat) (o : OctetString) :
    (data.length ≤ 900 →
      BoundedVec.new data = Except.ok ⟨data⟩ ∧
      BoundedVec.len ⟨data⟩ = data.length) ∧
    (data.length > 900 →
      BoundedVec.new data
          = Except.error (BoundedVecError.OversizeData data.length 900) ∧
      (o.set_present_value data).1
          = Except.error (BoundedVecError.OversizeData data.length 900)) := by
  constructor
  · intro h
    have hn : ¬ data.length > MAX_OCTET_STRING_SIZE := by
      simp only [MAX_OCTET_STRING_SIZE]; omega
    exact ⟨by simp [BoundedVec.new, hn], rfl⟩
  · intro h
    have hy : 900 < data.length := h
    constructor
    · simp [BoundedVec.new, MAX_OCTET_STRING_SIZE, hy]
    · simp [OctetString.set_present_value, BoundedVec.new, MAX_OCTET_STRING_SIZE, hy]

/-- Claim C2 witness: both branches at concrete inputs — a 4-byte
payload is accepted with length 4, a 901-byte payload is rejected by the
constructor and by `set_present_value` with `OversizeData 901 900`. -/
theorem C2_bounded_construction_witness :
    BoundedVec.new [1, 2, 3, 4] = Except.ok ⟨[1, 2, 3, 4]⟩ ∧
    BoundedVec.len ⟨[1, 2, 3, 4]⟩ = 4 ∧
    BoundedVec.new (List.replicate 901 1)
        = Except.error (BoundedVecError.OversizeData 901 900) ∧
    ((OctetString.new 1 "test").set_present_value (List.replicate 901 1)).1
        = Except.error (BoundedVecError.OversizeData 901 900) := by
  have hlen : (List.replicate 901 (1 : Nat)).length = 901 :=
    List.length_replicate 901 1
  have h1 := (C2_bounded_construction [1, 2, 3, 4] (OctetString.new 1 "test")).1
    (by decide)
  obtain ⟨h2a, h2b⟩ :=
    (C2_bounded_construction (List.replicate 901 1) (OctetString.new 1 "test")).2
      (by rw [hlen]; omega)
  rw [hlen] at h2a h2b
  exact ⟨h1.1, h1.2, h2a, h2b⟩

/-- Claim C3: whenever `set_property` or `set_present_value` returns an
error, the post-state object is exactly the prior object — every field
unchanged.  (`get_property` takes the object immutably and is embedded
as a pure function, so an `UnknownProperty` result cannot mutate state
by construction.) -/
theorem C3_error_no_mutation (o : OctetString) (p : PropertyIdentifier)
    (v : PropertyValue) (data : List Nat) (e : ObjectError)
    (e2 : BoundedVecError) :
    ((o.set_property p v).1 = Except.error e → (o.set_property p v).2 = o) ∧
    ((o.set_present_value data).1 = Except.error e2 →
      (o.set_present_value data).2 = o) := by
  constructor
  · intro h
    cases p <;> cases v <;> simp_all [OctetString.set_property]
  · intro h
    by_cases hd : data.length > MAX_OCTET_STRING_SIZE
    · simp [OctetString.set_present_value, BoundedVec.new, hd]
    · exfalso
      simp [OctetString.set_present_value, BoundedVec.new, hd] at h

/-- Claim C3 witness: the rejected write of `PresentValue` and the
oversize `set_present_value` both leave a concrete fresh object
untouched. -/
theorem C3_error_no_mutation_witness :
    ((OctetString.new 1 "test").set_property PropertyIdentifier.PresentValue
        (PropertyValue.OctetString [1])).2 = OctetString.new 1 "test" ∧
    ((OctetString.new 1 "test").set_present_value (List.replicate 901 1)).2
        = OctetString.new 1 "test" := by
  have hlen : (List.replicate 901 (1 : Nat)).length = 901 :=
    List.length_replicate 901 1
  have h := C3_error_no_mutation (OctetString.new 1 "test")
    PropertyIdentifier.PresentValue (PropertyValue.OctetString [1])
    (List.replicate 901 1) ObjectError.PropertyNotWritable
    (BoundedVecError.OversizeData 901 900)
  refine ⟨h.1 rfl, h.2 ?_⟩
  simp only [OctetString.set_present_value, BoundedVec.new, MAX_OCTET_STRING_SIZE, hlen]
  rw [if_pos (by omega)]

/-- Claim C4: for every object state and property identifier,
`is_property_writable(p)` is true exactly when some value makes
`set_property(p, v)` succeed — the predicate and the mutator agree. -/
theorem C4_writable_iff_settable (o : OctetString) (p : PropertyIdentifier) :
    o.is_property_writable p = true ↔
      ∃ v : PropertyValue, (o.set_property p v).1 = Except.ok () := by
  cases p
  case ObjectName =>
    simp only [OctetString.is_property_writable, true_iff]
    exact ⟨PropertyValue.CharacterString "", rfl⟩
  all_goals
    simp [OctetString.is_property_writable, OctetString.set_property]

/-- Claim C4 witness: the equivalence instantiated on a fresh object —
`ObjectName` is writable because writing a character string succeeds. -/
theorem C4_writable_iff_settable_witness :
    (OctetString.new 1 "test").is_property_writable PropertyIdentifier.ObjectName
      = true :=
  (C4_writable_iff_settable (OctetString.new 1 "test")
      PropertyIdentifier.ObjectName).mpr
    ⟨PropertyValue.CharacterString "a", rfl⟩

/-- Claim C5: writing `ObjectName` with a character string succeeds;
writing `ObjectName` with any non-character-string value fails with
`InvalidPropertyTypeError`; writing any other property fails with
`PropertyNotWritableError`, whatever the value and whatever the object
state (in particular whatever the out-of-service bit). -/
theorem C5_set_property_behavior (o : OctetString) (s : String)
    (v : PropertyValue) (p : PropertyIdentifier) :
    (o.set_property PropertyIdentifier.ObjectName
        (PropertyValue.CharacterString s)).1 = Except.ok () ∧
    ((∀ t : String, v ≠ PropertyValue.CharacterString t) →
      (o.set_property PropertyIdentifier.ObjectName v).1
        = Except.error ObjectError.InvalidPropertyType) ∧
    (p ≠ PropertyIdentifier.ObjectName →
      (o.set_property p v).1 = Except.error ObjectError.PropertyNotWritable) := by
  refine ⟨rfl, ?_, ?_⟩
  · intro hv
    cases v <;> first | rfl | exact absurd rfl (hv _)
  · intro hp
    cases p <;> first | rfl | exact absurd rfl hp

/-- Claim C5 witness: on an object whose out-of-service flag is set,
writing `PresentValue` is still rejected as not writable, and writing
`ObjectName` with an enumerated value is rejected as a type mismatch. -/
theorem C5_set_property_behavior_witness :
    (((OctetString.new 1 "test").set_status_flags false false false true).set_property
        PropertyIdentifier.PresentValue (PropertyValue.OctetString [1, 2])).1
      = Except.error ObjectError.PropertyNotWritable ∧
    ((OctetString.new 1 "test").set_property PropertyIdentifier.ObjectName
        (PropertyValue.Enumerated 0)).1
      = Except.error ObjectError.InvalidPropertyType := by
  have h := C5_set_property_behavior
    ((OctetString.new 1 "test").set_status_flags false false false true) "x"
    (PropertyValue.OctetString [1, 2]) PropertyIdentifier.PresentValue
  have h2 := C5_set_property_behavior (OctetString.new 1 "test") "x"
    (PropertyValue.Enumerated 0) PropertyIdentifier.ObjectName
  exact ⟨h.2.2 (by decide), h2.2.1 (fun t ht => PropertyValue.noConfusion ht)⟩

/-- Claim C6: for any object and any payload of length at most 900,
`set_present_value` succeeds, and `get_property(PresentValue)` on the
resulting object returns the octet-string tag wrapping exactly that
payload. -/
theorem C6_round_trip (o : OctetString) (data : List Nat)
    (h : data.length ≤ 900) :
    (o.set_present_value data).1 = Except.ok () ∧
    ((o.set_present_value data).2).get_property PropertyIdentifier.PresentValue
      = Except.ok (PropertyValue.OctetString data) := by
  have hn : ¬ data.length > MAX_OCTET_STRING_SIZE := by
    simp only [MAX_OCTET_STRING_SIZE]; omega
  constructor <;>
    simp [OctetString.set_present_value, BoundedVec.new, hn,
      OctetString.get_property]

/-- Claim C6 witness: the round trip at the spec's concrete scenario,
payload `[1, 2, 3, 4]`. -/
theorem C6_round_trip_witness :
    (((OctetString.new 1 "test").set_present_value [1, 2, 3, 4]).2).get_property
        PropertyIdentifier.PresentValue
      = Except.ok (PropertyValue.OctetString [1, 2, 3, 4]) :=
  (C6_round_trip (OctetString.new 1 "test") [1, 2, 3, 4] (by decide)).2

/-- Claim C7: whatever the prior status byte, after
`set_status_flags(a, b, c, d)` the getter returns exactly
`(a, b, c, d)`, the status byte equals the packing with bit 3 =
in-alarm, bit 2 = fault, bit 1 = overridden, bit 0 = out-of-service,
and all higher bits are zero (the byte is below 16). -/
theorem C7_status_flags (o : OctetString) (a b c d : Bool) :
    (o.set_status_flags a b c d).get_status_flags = (a, b, c, d) ∧
    (o.set_status_flags a b c d).status_flags
      = (if a then 8 else 0) + (if b then 4 else 0) + (if c then 2 else 0)
        + (if d then 1 else 0) ∧
    (o.set_status_flags a b c d).status_flags < 16 := by
  cases a <;> cases b <;> cases c <;> cases d <;>
    simp [OctetString.set_status_flags, OctetString.get_status_flags] <;> decide

/-- Helper for the reachability invariant: a single operation keeps the
identifier and, assuming the bound held before, keeps the present-value
length within the 900-byte bound. -/
theorem applyOp_preserves (o : OctetString) (op : Op)
    (h : o.present_value.length ≤ MAX_OCTET_STRING_SIZE) :
    (applyOp o op).identifier = o.identifier ∧
    (applyOp o op).present_value.length ≤ MAX_OCTET_STRING_SIZE := by
  cases op with
  | getProp p => exact ⟨rfl, h⟩
  | getFlags => exact ⟨rfl, h⟩
  | setFlags a b c d => exact ⟨rfl, h⟩
  | setProp p v =>
    cases p <;> first
      | exact ⟨rfl, h⟩
      | (cases v <;> exact ⟨rfl, h⟩)
  | setPresent data =>
    by_cases hd : data.length > MAX_OCTET_STRING_SIZE
    · constructor <;>
        simp [applyOp, OctetString.set_present_value, BoundedVec.new, hd, h]
    · constructor
      · simp [applyOp, OctetString.set_present_value, BoundedVec.new, hd]
      · simp [applyOp, OctetString.set_present_value, BoundedVec.new, hd]
        omega

/-- Helper for the reachability invariant: running a whole operation
sequence preserves the identifier and the present-value bound. -/
theorem runOps_preserves (l : List Op) (o : OctetString)
    (h : o.present_value.length ≤ MAX_OCTET_STRING_SIZE) :
    (runOps o l).identifier = o.identifier ∧
    (runOps o l).present_value.length ≤ MAX_OCTET_STRING_SIZE := by
  induction l generalizing o with
  | nil => exact ⟨rfl, h⟩
  | cons op rest ih =>
    obtain ⟨hid, hlen⟩ := applyOp_preserves o op h
    obtain ⟨hid2, hlen2⟩ := ih (applyOp o op) hlen
    exact ⟨by simp only [runOps]; rw [hid2, hid], by simp only [runOps]; exact hlen2⟩

/-- Claim C8: every object reachable from `new(instance, name)` by any
sequence of `get_property`, `set_property`, `set_present_value`,
`get_status_flags` and `set_status_flags` calls keeps the
construction-time identifier (Octet String type, the given instance) and
a present value of at most 900 bytes. -/
theorem C8_reachable_invariant (instanceNum : Nat) (name : String)
    (ops : List Op) :
    (runOps (OctetString.new instanceNum name) ops).identifier
        = ObjectIdentifier.new ObjectType.OctetString instanceNum ∧
    (runOps (OctetString.new instanceNum name) ops).present_value.length
        ≤ 900 := by
  obtain ⟨hid, hlen⟩ := runOps_preserves ops (OctetString.new instanceNum name)
    (by simp [OctetString.new])
  exact ⟨by rw [hid]; rfl, hlen⟩

/-- Claim C9: `property_list` returns exactly `ObjectIdentifier`,
`ObjectName`, `ObjectType`, `PresentValue` in that fixed order, on every
object — in particular the same sequence on repeated calls. -/
theorem C9_property_list (o o2 : OctetString) :
    o.property_list
      = [PropertyIdentifier.ObjectIdentifier, PropertyIdentifier.ObjectName,
         PropertyIdentifier.ObjectType, PropertyIdentifier.PresentValue] ∧
    o.property_list = o2.property_list :=
  ⟨rfl, rfl⟩

/-- Claim C10: frame of the successful mutators — writing `ObjectName`
with a character string succeeds, sets `object_name` to the new string
and leaves identifier, description, present value and status flags
unchanged; `set_present_value` never touches any field other than
`present_value`; `set_status_flags` never touches any field other than
`status_flags`. -/
theorem C10_mutation_frame (o : OctetString) (s : String) (data : List Nat)
    (a b c d : Bool) :
    ((o.set_property PropertyIdentifier.ObjectName
        (PropertyValue.CharacterString s)).1 = Except.ok () ∧
     (o.set_property PropertyIdentifier.ObjectName
        (PropertyValue.CharacterString s)).2.object_name = s ∧
     (o.set_property PropertyIdentifier.ObjectName
        (PropertyValue.CharacterString s)).2.identifier = o.identifier ∧
     (o.set_property PropertyIdentifier.ObjectName
        (PropertyValue.CharacterString s)).2.description = o.description ∧
     (o.set_property PropertyIdentifier.ObjectName
        (PropertyValue.CharacterString s)).2.present_value = o.present_value ∧
     (o.set_property PropertyIdentifier.ObjectName
        (PropertyValue.CharacterString s)).2.status_flags = o.status_flags) ∧
    ((o.set_present_value data).2.identifier = o.identifier ∧
     (o.set_present_value data).2.object_name = o.object_name ∧
     (o.set_present_value data).2.description = o.description ∧
     (o.set_present_value data).2.status_flags = o.status_flags) ∧
    ((o.set_status_flags a b c d).identifier = o.identifier ∧
     (o.set_status_flags a b c d).object_name = o.object_name ∧
     (o.set_status_flags a b c d).description = o.description ∧
     (o.set_status_flags a b c d).present_value = o.present_value) := by
  refine ⟨⟨rfl, rfl, rfl, rfl, rfl, rfl⟩, ?_, ⟨rfl, rfl, rfl, rfl⟩⟩
  unfold OctetString.set_present_value
  cases BoundedVec.new data <;> exact ⟨rfl, rfl, rfl, rfl⟩

end Bacnet
